import Mathlib

/-!
Verification of the video CRUD resource (`src/resources/video.py`).

The handler logic of the single component `Video` (a `flask_restful.Resource`)
is embedded shallowly:

* A database row (`models.video.VideoModel`) becomes the structure
  `VideoModel`; the table becomes `Storage`, a list of rows.  The SQLAlchemy
  queries used by the source are modelled with first-match semantics:
  `VideoModel.query.filter_by(id=video_id).first()` and
  `VideoModel.query.get(video_id)` both become `List.find?` on the id,
  `db.session.add` + `commit` becomes appending a row, `db.session.delete` +
  `commit` becomes removing the queried row (`removeFirst`), and the in-place
  attribute assignments of `patch` followed by `commit` become `updateFirst`.
* `reqparse` argument parsing becomes `parse_put_args` / `parse_update_args`
  over a `ReqBody` of optional JSON values.  `reqparse` reports the first
  failing argument, in the order the arguments were added (name, views,
  likes), as a 400 response whose message names that field together with its
  `help` text; this is the `ParseError` value.  A JSON `null` is delivered by
  `reqparse` to the handler as `None`, exactly like an absent field, so the
  embedding represents both as `Option.none`.
* `abort(status, message=...)` becomes an `Except` error carrying the status
  code and message; `@marshal_with(resource_fields)` becomes `marshal`,
  projecting a row to the four response fields.
* The Prometheus client state is modelled by `Metrics`: for each
  (method, endpoint) label pair, the number of counter increments and the
  number of histogram duration observations.  `Counter.labels(...).inc()`
  becomes `incCounter`; `Histogram.labels(...).time()` records one duration
  observation when the `with` block exits (also on an abort exception), which
  becomes one `observeHistogram` on every path through the handler.

Each handler is a function from its path argument, request body, storage and
metrics to the triple (response, storage after, metrics after).
-/

/-- A row of the video table: the entity {id, name, views, likes}. -/
structure VideoModel where
  id : Int
  name : String
  views : Int
  likes : Int
deriving DecidableEq, Repr

/-- The video table. -/
abbrev Storage := List VideoModel

/-- A JSON-ish request-body value (enough for the parsers' `type=str` /
`type=int` coercions). -/
inductive JVal where
  | jint (i : Int)
  | jstr (s : String)
deriving DecidableEq, Repr

/-- A request body: each of the three argument keys either absent (or JSON
`null`, which `reqparse` delivers identically) or present with a value. -/
structure ReqBody where
  name : Option JVal
  views : Option JVal
  likes : Option JVal
deriving DecidableEq, Repr

/-- `reqparse` coercion for `type=str`: Python `str()` succeeds on both
strings and integers. -/
def coerceStr : JVal → Option String
  | .jstr s => some s
  | .jint i => some (toString i)

/-- Accumulate a run of decimal digits; any non-digit fails. -/
def decDigitsAux : List Char → Nat → Option Nat
  | [], acc => some acc
  | c :: cs, acc =>
    if c.isDigit then decDigitsAux cs (acc * 10 + (c.toNat - 48)) else none

/-- Python `int(s)` on a decimal string: an optional leading minus sign
followed by at least one digit. -/
def strToInt (s : String) : Option Int :=
  match s.data with
  | [] => none
  | '-' :: [] => none
  | '-' :: c :: cs => (decDigitsAux (c :: cs) 0).map (fun n => -(n : Int))
  | cs => (decDigitsAux cs 0).map (fun n => (n : Int))

/-- `reqparse` coercion for `type=int`: an integer is accepted, a string is
accepted when it reads as a decimal integer (Python `int(s)`). -/
def coerceInt : JVal → Option Int
  | .jint i => some i
  | .jstr s => strToInt s

/-- The field-specific 400 error produced by `reqparse`: the argument name and
its configured `help` text. -/
structure ParseError where
  field : String
  help : String
deriving DecidableEq, Repr

/-- Arguments of a PUT (create) request after parsing: all three required. -/
structure PutArgs where
  name : String
  views : Int
  likes : Int
deriving DecidableEq, Repr

/-- Arguments of a PATCH (update) request after parsing: all three optional. -/
structure UpdateArgs where
  name : Option String
  views : Option Int
  likes : Option Int
deriving DecidableEq, Repr

/-- `video_put_args.parse_args()`: name, views, likes all `required=True`,
checked in the order they were added; the first missing or uncoercible one
aborts with 400 and that argument's help text. -/
def parse_put_args (b : ReqBody) : Except ParseError PutArgs :=
  match b.name.bind coerceStr with
  | none => .error ⟨"name", "Nombre del video es requerido"⟩
  | some n =>
    match b.views.bind coerceInt with
    | none => .error ⟨"views", "Número de vistas del video"⟩
    | some v =>
      match b.likes.bind coerceInt with
      | none => .error ⟨"likes", "Número de likes del video"⟩
      | some l => .ok ⟨n, v, l⟩

/-- `video_update_args.parse_args()`: all three optional; an absent argument
parses to `none`, a present argument must still coerce to its type. -/
def parse_update_args (b : ReqBody) : Except ParseError UpdateArgs :=
  match b.name with
  | none => parseViews none b
  | some jn =>
    match coerceStr jn with
    | none => .error ⟨"name", "Nombre del video"⟩
    | some n => parseViews (some n) b
where
  parseViews (n : Option String) (b : ReqBody) : Except ParseError UpdateArgs :=
    match b.views with
    | none => parseLikes n none b
    | some jv =>
      match coerceInt jv with
      | none => .error ⟨"views", "Número de vistas del video"⟩
      | some v => parseLikes n (some v) b
  parseLikes (n : Option String) (v : Option Int) (b : ReqBody) :
      Except ParseError UpdateArgs :=
    match b.likes with
    | none => .ok ⟨n, v, none⟩
    | some jl =>
      match coerceInt jl with
      | none => .error ⟨"likes", "Número de likes del video"⟩
      | some l => .ok ⟨n, v, some l⟩

/-- The serialized response body produced by
`@marshal_with(resource_fields)`: exactly {id, name, views, likes}. -/
structure VideoOut where
  id : Int
  name : String
  views : Int
  likes : Int
deriving DecidableEq, Repr

/-- `marshal_with(resource_fields)`: project a row to the response fields. -/
def marshal (r : VideoModel) : VideoOut :=
  ⟨r.id, r.name, r.views, r.likes⟩

/-- A handler response: a marshalled video with a status code, a message body
(`delete`'s confirmation), an `abort(status, message=...)`, or a `reqparse`
validation failure (status 400 with the field-specific message). -/
inductive Resp where
  | ok (v : VideoOut) (code : Nat)
  | msg (m : String) (code : Nat)
  | err (code : Nat) (message : String)
  | verr (code : Nat) (e : ParseError)
deriving DecidableEq, Repr

/-- Prometheus client state: per (method, endpoint) label pair, how many
counter increments and how many histogram duration observations happened. -/
structure Metrics where
  requestCount : String → String → Nat
  histogramObs : String → String → Nat

/-- Fresh metrics registry: no increments, no observations. -/
def zeroMetrics : Metrics :=
  ⟨fun _ _ => 0, fun _ _ => 0⟩

/-- `request_counter.labels(method=m, endpoint=e).inc()`. -/
def incCounter (m e : String) (μ : Metrics) : Metrics :=
  { μ with
    requestCount := fun m2 e2 =>
      if m2 = m ∧ e2 = e then μ.requestCount m2 e2 + 1
      else μ.requestCount m2 e2 }

/-- `response_histogram.labels(method=m, endpoint=e).time()`: one duration
observation recorded when the `with` block exits (on any path). -/
def observeHistogram (m e : String) (μ : Metrics) : Metrics :=
  { μ with
    histogramObs := fun m2 e2 =>
      if m2 = m ∧ e2 = e then μ.histogramObs m2 e2 + 1
      else μ.histogramObs m2 e2 }

/-- `abort_if_video_doesnt_exist(video_id)`: look the row up with
`filter_by(id=video_id).first()`; absent → `abort(404, message=...)` naming
the missing id, present → the row. -/
def abort_if_video_doesnt_exist (vid : Int) (s : Storage) :
    Except (Nat × String) VideoModel :=
  match s.find? (fun r => r.id == vid) with
  | none => .error (404, s!"No se encontró un video con el ID {vid}")
  | some v => .ok v

/-- Map the first element satisfying `p` through `f`; leave the rest alone
(the in-place mutation of the queried row in `patch`, then `commit`). -/
def updateFirst (p : α → Bool) (f : α → α) : List α → List α
  | [] => []
  | r :: rs => if p r then f r :: rs else r :: updateFirst p f rs

/-- Remove the first element satisfying `p`
(`db.session.delete(video)` on the queried row, then `commit`). -/
def removeFirst (p : α → Bool) : List α → List α
  | [] => []
  | r :: rs => if p r then rs else r :: removeFirst p rs

/-- `Video.get(video_id)`: existence check, then return the marshalled row
with 200.  The source instruments no metrics in this handler. -/
def Video.get (vid : Int) (s : Storage) (μ : Metrics) :
    Resp × Storage × Metrics :=
  match abort_if_video_doesnt_exist vid s with
  | .error (c, m) => (.err c m, s, μ)
  | .ok video => (.ok (marshal video) 200, s, μ)

/-- The counter endpoint label used by `put`, `patch` and `delete`. -/
def videoEndpoint : String := "/video/<int:video_id>"

/-- The histogram endpoint label used by `put`, `patch` and `delete`: the
source writes `'/video/<int:video_id}'`, closing the placeholder with a brace
instead of an angle bracket. -/
def videoEndpointHist : String := "/video/<int:video_id\x7d"

/-- `Video.put(video_id)`: count the request and time it, parse the required
body arguments (400 on the first missing/ill-typed one), 409 if a row with
the id already exists, otherwise insert the new row and return it with 201. -/
def Video.put (vid : Int) (b : ReqBody) (s : Storage) (μ : Metrics) :
    Resp × Storage × Metrics :=
  let μ2 := observeHistogram "PUT" videoEndpointHist
    (incCounter "PUT" videoEndpoint μ)
  match parse_put_args b with
  | .error e => (.verr 400 e, s, μ2)
  | .ok args =>
    match s.find? (fun r => r.id == vid) with
    | some _ => (.err 409 s!"Ya existe un video con el ID {vid}", s, μ2)
    | none =>
      let video : VideoModel := ⟨vid, args.name, args.views, args.likes⟩
      (.ok (marshal video) 201, s ++ [video], μ2)

/-- Overwrite exactly the fields present in the parsed PATCH arguments
(the three `if args[...] is not None` assignments). -/
def applyUpdate (args : UpdateArgs) (r : VideoModel) : VideoModel :=
  let r1 := match args.name with
    | some n => { r with name := n }
    | none => r
  let r2 := match args.views with
    | some v => { r1 with views := v }
    | none => r1
  match args.likes with
  | some l => { r2 with likes := l }
  | none => r2

/-- `Video.patch(video_id)`: count the request and time it, existence check
(404 if absent, before the body is parsed), parse the optional arguments,
overwrite the present fields on the row, commit, return the row with 200. -/
def Video.patch (vid : Int) (b : ReqBody) (s : Storage) (μ : Metrics) :
    Resp × Storage × Metrics :=
  let μ2 := observeHistogram "PATCH" videoEndpointHist
    (incCounter "PATCH" videoEndpoint μ)
  match abort_if_video_doesnt_exist vid s with
  | .error (c, m) => (.err c m, s, μ2)
  | .ok video =>
    match parse_update_args b with
    | .error e => (.verr 400 e, s, μ2)
    | .ok args =>
      (.ok (marshal (applyUpdate args video)) 200,
        updateFirst (fun r => r.id == vid) (applyUpdate args) s, μ2)

/-- `Video.delete(video_id)`: count the request and time it, existence check
(404 if absent), delete the row, commit, return a confirmation message naming
the id with status 204. -/
def Video.delete (vid : Int) (s : Storage) (μ : Metrics) :
    Resp × Storage × Metrics :=
  let μ2 := observeHistogram "DELETE" videoEndpointHist
    (incCounter "DELETE" videoEndpoint μ)
  match abort_if_video_doesnt_exist vid s with
  | .error (c, m) => (.err c m, s, μ2)
  | .ok _ =>
    (.msg s!"Video con id {vid} eliminado" 204,
      removeFirst (fun r => r.id == vid) s, μ2)

/-- One request to the `Video` resource (the storage-relevant inputs). -/
inductive Op where
  | get (vid : Int)
  | put (vid : Int) (b : ReqBody)
  | patch (vid : Int) (b : ReqBody)
  | delete (vid : Int)
deriving DecidableEq, Repr

/-- The storage after handling one request (the storage outcome does not
depend on the metrics registry). -/
def applyOp (op : Op) (s : Storage) : Storage :=
  match op with
  | .get vid => (Video.get vid s zeroMetrics).2.1
  | .put vid b => (Video.put vid b s zeroMetrics).2.1
  | .patch vid b => (Video.patch vid b s zeroMetrics).2.1
  | .delete vid => (Video.delete vid s zeroMetrics).2.1

/-- The storage reached by a sequence of requests, starting from the empty
table. -/
def run (ops : List Op) : Storage :=
  ops.foldl (fun s op => applyOp op s) []

/-- The table's primary-key constraint: no two rows share an id. -/
def UniqueIds (s : Storage) : Prop :=
  (s.map (fun r => r.id)).Nodup

instance : DecidablePred UniqueIds := fun s => by
  unfold UniqueIds
  infer_instance

/-- A well-formed create body carrying the three arguments. -/
def mkPutBody (n : String) (v l : Int) : ReqBody :=
  ⟨some (.jstr n), some (.jint v), some (.jint l)⟩

/-- A PATCH body carrying only `views`. -/
def mkViewsBody (v : Int) : ReqBody :=
  ⟨none, some (.jint v), none⟩

/-! ### Helper lemmas about the storage operations -/

theorem find?_append_of_none {α} (p : α → Bool) {l₁ : List α}
    (h : l₁.find? p = none) (l₂ : List α) :
    (l₁ ++ l₂).find? p = l₂.find? p := by
  induction l₁ with
  | nil => simp
  | cons a l ih =>
    rw [List.find?_cons] at h
    cases hp : p a with
    | true => simp [hp] at h
    | false =>
      rw [hp] at h
      simpa [List.find?_cons, hp] using ih h

theorem updateFirst_decomp {α} (p : α → Bool) (f : α → α) {s : List α} {r : α}
    (h : s.find? p = some r) :
    ∃ pre post, s = pre ++ r :: post ∧ (∀ x ∈ pre, p x = false) ∧
      updateFirst p f s = pre ++ f r :: post := by
  induction s with
  | nil => simp at h
  | cons a l ih =>
    rw [List.find?_cons] at h
    cases hp : p a with
    | true =>
      rw [hp] at h
      obtain rfl : a = r := by simpa using h
      exact ⟨[], l, rfl, by simp, by simp [updateFirst, hp]⟩
    | false =>
      rw [hp] at h
      obtain ⟨pre, post, hs, hpre, hu⟩ := ih h
      exact ⟨a :: pre, post, by simp [hs], by simpa [hp] using hpre,
        by simp [updateFirst, hp, hu]⟩

theorem removeFirst_decomp {α} (p : α → Bool) {s : List α} {r : α}
    (h : s.find? p = some r) :
    ∃ pre post, s = pre ++ r :: post ∧ (∀ x ∈ pre, p x = false) ∧
      removeFirst p s = pre ++ post := by
  induction s with
  | nil => simp at h
  | cons a l ih =>
    rw [List.find?_cons] at h
    cases hp : p a with
    | true =>
      rw [hp] at h
      obtain rfl : a = r := by simpa using h
      exact ⟨[], l, rfl, by simp, by simp [removeFirst, hp]⟩
    | false =>
      rw [hp] at h
      obtain ⟨pre, post, hs, hpre, hu⟩ := ih h
      exact ⟨a :: pre, post, by simp [hs], by simpa [hp] using hpre,
        by simp [removeFirst, hp, hu]⟩

theorem mem_updateFirst {α} {p : α → Bool} {f : α → α} {s : List α} {x : α}
    (h : x ∈ updateFirst p f s) : x ∈ s ∨ ∃ y ∈ s, x = f y := by
  induction s with
  | nil => simp [updateFirst] at h
  | cons a l ih =>
    simp only [updateFirst] at h
    by_cases hp : p a = true
    · rw [if_pos hp] at h
      rcases List.mem_cons.mp h with h1 | h1
      · exact .inr ⟨a, List.mem_cons_self a l, h1⟩
      · exact .inl (List.mem_cons_of_mem a h1)
    · rw [if_neg hp] at h
      rcases List.mem_cons.mp h with h1 | h1
      · subst h1
        exact .inl (List.mem_cons_self x l)
      · rcases ih h1 with h2 | ⟨y, hy, hxy⟩
        · exact .inl (List.mem_cons_of_mem a h2)
        · exact .inr ⟨y, List.mem_cons_of_mem a hy, hxy⟩

theorem mem_removeFirst {α} {p : α → Bool} {s : List α} {x : α}
    (h : x ∈ removeFirst p s) : x ∈ s := by
  induction s with
  | nil => simp [removeFirst] at h
  | cons a l ih =>
    simp only [removeFirst] at h
    by_cases hp : p a = true
    · rw [if_pos hp] at h
      exact List.mem_cons_of_mem a h
    · rw [if_neg hp] at h
      rcases List.mem_cons.mp h with h1 | h1
      · subst h1
        exact List.mem_cons_self x l
      · exact List.mem_cons_of_mem a (ih h1)

theorem applyUpdate_id (args : UpdateArgs) (r : VideoModel) :
    (applyUpdate args r).id = r.id := by
  cases args with
  | mk n v l => cases n <;> cases v <;> cases l <;> rfl

theorem applyUpdate_fields (args : UpdateArgs) (r : VideoModel) :
    (applyUpdate args r).name = args.name.getD r.name ∧
    (applyUpdate args r).views = args.views.getD r.views ∧
    (applyUpdate args r).likes = args.likes.getD r.likes := by
  cases args with
  | mk n v l => cases n <;> cases v <;> cases l <;> exact ⟨rfl, rfl, rfl⟩

theorem find?_removeFirst_unique {vid : Int} {s : Storage} {r : VideoModel}
    (hu : UniqueIds s) (h : s.find? (fun x => x.id == vid) = some r) :
    (removeFirst (fun x => x.id == vid) s).find? (fun x => x.id == vid) =
      none := by
  obtain ⟨pre, post, hs, hpre, hrm⟩ :=
    removeFirst_decomp (fun x : VideoModel => x.id == vid) h
  have hr : r.id = vid := by
    have := List.find?_some h
    simpa using this
  rw [hrm]
  have hpre' : pre.find? (fun x => x.id == vid) = none :=
    List.find?_eq_none.mpr (fun x hx => by simp [hpre x hx])
  rw [find?_append_of_none _ hpre']
  have hnodup : ((pre ++ r :: post).map (fun x => x.id)).Nodup := by
    rw [← hs]
    exact hu
  rw [List.map_append, List.map_cons] at hnodup
  have hpost : r.id ∉ post.map (fun x => x.id) :=
    (List.nodup_cons.mp hnodup.of_append_right).1
  refine List.find?_eq_none.mpr (fun x hx hc => hpost ?_)
  have hx' : x.id = vid := by simpa using hc
  exact List.mem_map.mpr ⟨x, hx, hx'.trans hr.symm⟩

theorem find?_updateFirst {vid : Int} {s : Storage} {r : VideoModel}
    (args : UpdateArgs) (h : s.find? (fun x => x.id == vid) = some r) :
    (updateFirst (fun x => x.id == vid) (applyUpdate args) s).find?
      (fun x => x.id == vid) = some (applyUpdate args r) := by
  obtain ⟨pre, post, hs, hpre, hup⟩ :=
    updateFirst_decomp (fun x : VideoModel => x.id == vid) (applyUpdate args) h
  have hr : r.id = vid := by
    have := List.find?_some h
    simpa using this
  rw [hup]
  have hpre' : pre.find? (fun x => x.id == vid) = none :=
    List.find?_eq_none.mpr (fun x hx => by simp [hpre x hx])
  rw [find?_append_of_none _ hpre', List.find?_cons]
  simp [applyUpdate_id, hr]

/-! ### Helper lemmas about the metrics registry -/

theorem put_metrics (vid : Int) (b : ReqBody) (s : Storage) (μ : Metrics) :
    (Video.put vid b s μ).2.2 =
      observeHistogram "PUT" videoEndpointHist
        (incCounter "PUT" videoEndpoint μ) := by
  cases hp : parse_put_args b with
  | error e => simp [Video.put, hp]
  | ok args =>
    cases hf : s.find? (fun r => r.id == vid) with
    | none => simp [Video.put, hp, hf]
    | some r => simp [Video.put, hp, hf]

theorem patch_metrics (vid : Int) (b : ReqBody) (s : Storage) (μ : Metrics) :
    (Video.patch vid b s μ).2.2 =
      observeHistogram "PATCH" videoEndpointHist
        (incCounter "PATCH" videoEndpoint μ) := by
  cases hf : s.find? (fun r => r.id == vid) with
  | none => simp [Video.patch, abort_if_video_doesnt_exist, hf]
  | some r =>
    cases hp : parse_update_args b with
    | error e => simp [Video.patch, abort_if_video_doesnt_exist, hf, hp]
    | ok args => simp [Video.patch, abort_if_video_doesnt_exist, hf, hp]

theorem delete_metrics (vid : Int) (s : Storage) (μ : Metrics) :
    (Video.delete vid s μ).2.2 =
      observeHistogram "DELETE" videoEndpointHist
        (incCounter "DELETE" videoEndpoint μ) := by
  cases hf : s.find? (fun r => r.id == vid) with
  | none => simp [Video.delete, abort_if_video_doesnt_exist, hf]
  | some r => simp [Video.delete, abort_if_video_doesnt_exist, hf]

theorem incCounter_self (m e : String) (μ : Metrics) :
    (incCounter m e μ).requestCount m e = μ.requestCount m e + 1 := by
  simp [incCounter]

theorem incCounter_hist (m e : String) (μ : Metrics) :
    (incCounter m e μ).histogramObs = μ.histogramObs := rfl

theorem observeHistogram_self (m e : String) (μ : Metrics) :
    (observeHistogram m e μ).histogramObs m e = μ.histogramObs m e + 1 := by
  simp [observeHistogram]

theorem observeHistogram_other (m e m2 e2 : String) (μ : Metrics)
    (h : ¬(m2 = m ∧ e2 = e)) :
    (observeHistogram m e μ).histogramObs m2 e2 = μ.histogramObs m2 e2 := by
  simp [observeHistogram, h]

theorem observeHistogram_count (m e : String) (μ : Metrics) :
    (observeHistogram m e μ).requestCount = μ.requestCount := rfl

theorem endpoint_labels_differ : videoEndpoint ≠ videoEndpointHist := by
  decide

/-! ### Claim theorems -/

/-- Claim C4: for an id absent from storage, fetch fails with status 404 and a
message naming the missing id, changing no state; for an id present, fetch
returns the record serialized to {id, name, views, likes} with status 200. -/
theorem fetch_found_or_notfound (vid : Int) (s : Storage) (μ : Metrics) :
    (s.find? (fun x => x.id == vid) = none →
      Video.get vid s μ =
        (.err 404 s!"No se encontró un video con el ID {vid}", s, μ)) ∧
    (∀ r, s.find? (fun x => x.id == vid) = some r →
      Video.get vid s μ = (.ok ⟨r.id, r.name, r.views, r.likes⟩ 200, s, μ)) := by
  constructor
  · intro h
    simp [Video.get, abort_if_video_doesnt_exist, h]
  · intro r h
    simp [Video.get, abort_if_video_doesnt_exist, h, marshal]

/-- Witness for C4: a one-row table, queried at an absent and at the present
id. -/
theorem fetch_found_or_notfound_witness :
    Video.get 2 [⟨1, "a", 2, 3⟩] zeroMetrics =
      (.err 404 "No se encontró un video con el ID 2",
        [⟨1, "a", 2, 3⟩], zeroMetrics) ∧
    Video.get 1 [⟨1, "a", 2, 3⟩] zeroMetrics =
      (.ok ⟨1, "a", 2, 3⟩ 200, [⟨1, "a", 2, 3⟩], zeroMetrics) :=
  ⟨(fetch_found_or_notfound 2 [⟨1, "a", 2, 3⟩] zeroMetrics).1 rfl,
   (fetch_found_or_notfound 1 [⟨1, "a", 2, 3⟩] zeroMetrics).2 ⟨1, "a", 2, 3⟩ rfl⟩

/-- Claim C1: when a record with the id already exists, create returns status
409 with a message naming the existing id, and storage is unchanged: the
existing record keeps all its fields and no new record is inserted. -/
theorem create_conflict_unchanged (vid : Int) (n : String) (v l : Int)
    (s : Storage) (μ : Metrics) (r : VideoModel)
    (h : s.find? (fun x => x.id == vid) = some r) :
    Video.put vid (mkPutBody n v l) s μ =
      (.err 409 s!"Ya existe un video con el ID {vid}", s,
        observeHistogram "PUT" videoEndpointHist
          (incCounter "PUT" videoEndpoint μ)) := by
  have hp : parse_put_args (mkPutBody n v l) = .ok ⟨n, v, l⟩ := rfl
  simp [Video.put, hp, h]

/-- Witness for C1: creating id 1 over an existing record with id 1. -/
theorem create_conflict_unchanged_witness :
    Video.put 1 (mkPutBody "b" 5 6) [⟨1, "a", 2, 3⟩] zeroMetrics =
      (.err 409 "Ya existe un video con el ID 1", [⟨1, "a", 2, 3⟩],
        observeHistogram "PUT" videoEndpointHist
          (incCounter "PUT" videoEndpoint zeroMetrics)) :=
  create_conflict_unchanged 1 "b" 5 6 [⟨1, "a", 2, 3⟩] zeroMetrics
    ⟨1, "a", 2, 3⟩ rfl

/-- Claim C3: for an id not in storage, a successful create followed by a
fetch of the same id returns a record whose four fields exactly equal the
arguments passed to create. -/
theorem create_then_fetch_roundtrip (vid : Int) (n : String) (v l : Int)
    (s : Storage) (μ μ2 : Metrics)
    (h : s.find? (fun x => x.id == vid) = none) :
    (Video.put vid (mkPutBody n v l) s μ).1 = .ok ⟨vid, n, v, l⟩ 201 ∧
    (Video.get vid (Video.put vid (mkPutBody n v l) s μ).2.1 μ2).1 =
      .ok ⟨vid, n, v, l⟩ 200 := by
  have hp : parse_put_args (mkPutBody n v l) = .ok ⟨n, v, l⟩ := rfl
  have hput : Video.put vid (mkPutBody n v l) s μ =
      (.ok ⟨vid, n, v, l⟩ 201, s ++ [⟨vid, n, v, l⟩],
        observeHistogram "PUT" videoEndpointHist
          (incCounter "PUT" videoEndpoint μ)) := by
    simp [Video.put, hp, h, marshal]
  refine ⟨by rw [hput], ?_⟩
  rw [hput]
  have hfind : (s ++ [⟨vid, n, v, l⟩] : Storage).find?
      (fun x => x.id == vid) = some ⟨vid, n, v, l⟩ := by
    rw [find?_append_of_none _ h]
    simp [List.find?_cons]
  simp [Video.get, abort_if_video_doesnt_exist, hfind, marshal]

/-- Witness for C3: create id 7 in a table holding id 1, then fetch id 7. -/
theorem create_then_fetch_roundtrip_witness :
    (Video.put 7 (mkPutBody "c" 10 20) [⟨1, "a", 2, 3⟩] zeroMetrics).1 =
      .ok ⟨7, "c", 10, 20⟩ 201 ∧
    (Video.get 7
      (Video.put 7 (mkPutBody "c" 10 20) [⟨1, "a", 2, 3⟩] zeroMetrics).2.1
      zeroMetrics).1 = .ok ⟨7, "c", 10, 20⟩ 200 :=
  create_then_fetch_roundtrip 7 "c" 10 20 [⟨1, "a", 2, 3⟩] zeroMetrics
    zeroMetrics rfl

/-- Claim C2: partial update overwrites exactly the fields present in the
request and leaves each absent field with its prior value; a views-only
update on an existing record returns the record with only `views` changed
(status 200) and persists it in place of the old record, every other row
untouched. -/
theorem partial_update_exact_fields (vid : Int) (v : Int) (s : Storage)
    (μ : Metrics) (r : VideoModel)
    (h : s.find? (fun x => x.id == vid) = some r) :
    (Video.patch vid (mkViewsBody v) s μ).1 =
      .ok ⟨r.id, r.name, v, r.likes⟩ 200 ∧
    (∃ pre post, s = pre ++ r :: post ∧ (∀ x ∈ pre, (x.id == vid) = false) ∧
      (Video.patch vid (mkViewsBody v) s μ).2.1 =
        pre ++ { r with views := v } :: post) ∧
    (∀ args x, (applyUpdate args x).name = args.name.getD x.name ∧
      (applyUpdate args x).views = args.views.getD x.views ∧
      (applyUpdate args x).likes = args.likes.getD x.likes ∧
      (applyUpdate args x).id = x.id) := by
  have hp : parse_update_args (mkViewsBody v) = .ok ⟨none, some v, none⟩ := rfl
  refine ⟨?_, ?_, ?_⟩
  · simp [Video.patch, abort_if_video_doesnt_exist, h, hp, marshal,
      applyUpdate]
  · obtain ⟨pre, post, hs, hpre, hup⟩ :=
      updateFirst_decomp (fun x : VideoModel => x.id == vid)
        (applyUpdate ⟨none, some v, none⟩) h
    refine ⟨pre, post, hs, hpre, ?_⟩
    have hstore : (Video.patch vid (mkViewsBody v) s μ).2.1 =
        updateFirst (fun x => x.id == vid)
          (applyUpdate ⟨none, some v, none⟩) s := by
      simp [Video.patch, abort_if_video_doesnt_exist, h, hp]
    rw [hstore, hup]
    rfl
  · intro args x
    obtain ⟨h1, h2, h3⟩ := applyUpdate_fields args x
    exact ⟨h1, h2, h3, applyUpdate_id args x⟩

/-- Witness for C2: a views-only update of id 1 in a two-row table. -/
theorem partial_update_exact_fields_witness :
    (Video.patch 1 (mkViewsBody 9) [⟨1, "a", 2, 3⟩, ⟨5, "b", 0, 0⟩]
      zeroMetrics).1 = .ok ⟨1, "a", 9, 3⟩ 200 ∧
    (∃ pre post,
      ([⟨1, "a", 2, 3⟩, ⟨5, "b", 0, 0⟩] : Storage) =
        pre ++ (⟨1, "a", 2, 3⟩ : VideoModel) :: post ∧
      (∀ x ∈ pre, (x.id == (1 : Int)) = false) ∧
      (Video.patch 1 (mkViewsBody 9) [⟨1, "a", 2, 3⟩, ⟨5, "b", 0, 0⟩]
        zeroMetrics).2.1 =
          pre ++ (⟨1, "a", 9, 3⟩ : VideoModel) :: post) ∧
    (∀ args x, (applyUpdate args x).name = args.name.getD x.name ∧
      (applyUpdate args x).views = args.views.getD x.views ∧
      (applyUpdate args x).likes = args.likes.getD x.likes ∧
      (applyUpdate args x).id = x.id) :=
  partial_update_exact_fields 1 9 [⟨1, "a", 2, 3⟩, ⟨5, "b", 0, 0⟩]
    zeroMetrics ⟨1, "a", 2, 3⟩ rfl

/-- Claim C5: for a present id (under the table's primary-key uniqueness),
delete returns the confirmation message naming the id paired with status
code 204 and removes the record — a subsequent fetch of the id returns 404,
every remaining row was already in the table, and the deleted record is
gone; for an absent id, delete fails with 404 and storage is unchanged. -/
theorem delete_semantics (vid : Int) (s : Storage) (μ μ2 : Metrics) :
    (∀ r, UniqueIds s → s.find? (fun x => x.id == vid) = some r →
      (Video.delete vid s μ).1 = .msg s!"Video con id {vid} eliminado" 204 ∧
      (Video.get vid (Video.delete vid s μ).2.1 μ2).1 =
        .err 404 s!"No se encontró un video con el ID {vid}" ∧
      (∀ x ∈ (Video.delete vid s μ).2.1, x ∈ s) ∧
      r ∉ (Video.delete vid s μ).2.1) ∧
    (s.find? (fun x => x.id == vid) = none →
      Video.delete vid s μ =
        (.err 404 s!"No se encontró un video con el ID {vid}", s,
          observeHistogram "DELETE" videoEndpointHist
            (incCounter "DELETE" videoEndpoint μ))) := by
  constructor
  · intro r hu h
    have hstore : (Video.delete vid s μ).2.1 =
        removeFirst (fun x => x.id == vid) s := by
      simp [Video.delete, abort_if_video_doesnt_exist, h]
    have hresp : (Video.delete vid s μ).1 =
        .msg s!"Video con id {vid} eliminado" 204 := by
      simp [Video.delete, abort_if_video_doesnt_exist, h]
    have hnone := find?_removeFirst_unique hu h
    refine ⟨hresp, ?_, ?_, ?_⟩
    · rw [hstore]
      simp [Video.get, abort_if_video_doesnt_exist, hnone]
    · intro x hx
      rw [hstore] at hx
      exact mem_removeFirst hx
    · rw [hstore]
      intro hmem
      have hpr := List.find?_some h
      exact absurd hpr (List.find?_eq_none.mp hnone r hmem)
  · intro h
    simp [Video.delete, abort_if_video_doesnt_exist, h]

/-- Witness for C5: delete id 1 from a one-row table (present case), and
delete id 2 from the same table (absent case). -/
theorem delete_semantics_witness :
    ((Video.delete 1 [⟨1, "a", 2, 3⟩] zeroMetrics).1 =
        .msg "Video con id 1 eliminado" 204 ∧
      (Video.get 1 (Video.delete 1 [⟨1, "a", 2, 3⟩] zeroMetrics).2.1
        zeroMetrics).1 = .err 404 "No se encontró un video con el ID 1" ∧
      (∀ x ∈ (Video.delete 1 [⟨1, "a", 2, 3⟩] zeroMetrics).2.1,
        x ∈ ([⟨1, "a", 2, 3⟩] : Storage)) ∧
      (⟨1, "a", 2, 3⟩ : VideoModel) ∉
        (Video.delete 1 [⟨1, "a", 2, 3⟩] zeroMetrics).2.1) ∧
    Video.delete 2 [⟨1, "a", 2, 3⟩] zeroMetrics =
      (.err 404 "No se encontró un video con el ID 2", [⟨1, "a", 2, 3⟩],
        observeHistogram "DELETE" videoEndpointHist
          (incCounter "DELETE" videoEndpoint zeroMetrics)) :=
  ⟨(delete_semantics 1 [⟨1, "a", 2, 3⟩] zeroMetrics zeroMetrics).1
      ⟨1, "a", 2, 3⟩ (by decide) rfl,
   (delete_semantics 2 [⟨1, "a", 2, 3⟩] zeroMetrics zeroMetrics).2 rfl⟩

/-- Claim C6: a create request missing a required body field fails with the
parser's validation error — status 400 with the message naming the specific
missing field (the parser checks name, then views, then likes) — and no
record is inserted: storage is unchanged. -/
theorem create_missing_field_validation (vid : Int) (b : ReqBody)
    (s : Storage) (μ : Metrics) :
    (b.name = none →
      Video.put vid b s μ =
        (.verr 400 ⟨"name", "Nombre del video es requerido"⟩, s,
          observeHistogram "PUT" videoEndpointHist
            (incCounter "PUT" videoEndpoint μ))) ∧
    (∀ jn, b.name = some jn → b.views = none →
      Video.put vid b s μ =
        (.verr 400 ⟨"views", "Número de vistas del video"⟩, s,
          observeHistogram "PUT" videoEndpointHist
            (incCounter "PUT" videoEndpoint μ))) ∧
    (∀ jn w, b.name = some jn → b.views = some (.jint w) → b.likes = none →
      Video.put vid b s μ =
        (.verr 400 ⟨"likes", "Número de likes del video"⟩, s,
          observeHistogram "PUT" videoEndpointHist
            (incCounter "PUT" videoEndpoint μ))) := by
  refine ⟨?_, ?_, ?_⟩
  · intro h
    have hp : parse_put_args b =
        .error ⟨"name", "Nombre del video es requerido"⟩ := by
      unfold parse_put_args
      rw [h]
      rfl
    simp [Video.put, hp]
  · intro jn hn hv
    have hp : parse_put_args b =
        .error ⟨"views", "Número de vistas del video"⟩ := by
      unfold parse_put_args
      rw [hn, hv]
      cases jn <;> rfl
    simp [Video.put, hp]
  · intro jn w hn hv hl
    have hp : parse_put_args b =
        .error ⟨"likes", "Número de likes del video"⟩ := by
      unfold parse_put_args
      rw [hn, hv, hl]
      cases jn <;> rfl
    simp [Video.put, hp]

/-- Witness for C6: three create requests, each missing one required field. -/
theorem create_missing_field_validation_witness :
    Video.put 1 ⟨none, some (.jint 0), some (.jint 0)⟩ [] zeroMetrics =
      (.verr 400 ⟨"name", "Nombre del video es requerido"⟩, [],
        observeHistogram "PUT" videoEndpointHist
          (incCounter "PUT" videoEndpoint zeroMetrics)) ∧
    Video.put 1 ⟨some (.jstr "a"), none, some (.jint 0)⟩ [] zeroMetrics =
      (.verr 400 ⟨"views", "Número de vistas del video"⟩, [],
        observeHistogram "PUT" videoEndpointHist
          (incCounter "PUT" videoEndpoint zeroMetrics)) ∧
    Video.put 1 ⟨some (.jstr "a"), some (.jint 0), none⟩ [] zeroMetrics =
      (.verr 400 ⟨"likes", "Número de likes del video"⟩, [],
        observeHistogram "PUT" videoEndpointHist
          (incCounter "PUT" videoEndpoint zeroMetrics)) :=
  ⟨(create_missing_field_validation 1 ⟨none, some (.jint 0), some (.jint 0)⟩
      [] zeroMetrics).1 rfl,
   (create_missing_field_validation 1 ⟨some (.jstr "a"), none, some (.jint 0)⟩
      [] zeroMetrics).2.1 (.jstr "a") rfl rfl,
   (create_missing_field_validation 1 ⟨some (.jstr "a"), some (.jint 0), none⟩
      [] zeroMetrics).2.2 (.jstr "a") 0 rfl rfl rfl⟩

/-- Claim C9: in create, body validation precedes the conflict check — a
request whose body fails to parse is answered with 400 and the parser's
error even when a record with the id already exists, and storage is
unchanged (the 400 is returned, not the 409). -/
theorem validation_precedes_conflict (vid : Int) (b : ReqBody) (s : Storage)
    (μ : Metrics) (r : VideoModel) (e : ParseError)
    (hr : s.find? (fun x => x.id == vid) = some r)
    (he : parse_put_args b = .error e) :
    Video.put vid b s μ =
      (.verr 400 e, s,
        observeHistogram "PUT" videoEndpointHist
          (incCounter "PUT" videoEndpoint μ)) := by
  simp [Video.put, he]

/-- Witness for C9: an empty body sent for an id that already exists. -/
theorem validation_precedes_conflict_witness :
    Video.put 1 ⟨none, none, none⟩ [⟨1, "a", 2, 3⟩] zeroMetrics =
      (.verr 400 ⟨"name", "Nombre del video es requerido"⟩, [⟨1, "a", 2, 3⟩],
        observeHistogram "PUT" videoEndpointHist
          (incCounter "PUT" videoEndpoint zeroMetrics)) :=
  validation_precedes_conflict 1 ⟨none, none, none⟩ [⟨1, "a", 2, 3⟩]
    zeroMetrics ⟨1, "a", 2, 3⟩ ⟨"name", "Nombre del video es requerido"⟩
    rfl rfl

/-- Claim C10: in partial update, the existence check precedes body parsing —
a request for an id absent from storage is answered with 404 for every body,
well-formed or not, and storage is unchanged. -/
theorem existence_check_precedes_parse (vid : Int) (b : ReqBody)
    (s : Storage) (μ : Metrics)
    (h : s.find? (fun x => x.id == vid) = none) :
    Video.patch vid b s μ =
      (.err 404 s!"No se encontró un video con el ID {vid}", s,
        observeHistogram "PATCH" videoEndpointHist
          (incCounter "PATCH" videoEndpoint μ)) := by
  simp [Video.patch, abort_if_video_doesnt_exist, h]

/-- Witness for C10: an ill-typed body (the `views` value does not parse as
an integer) sent for an absent id still yields the 404, not a parse error. -/
theorem existence_check_precedes_parse_witness :
    parse_update_args ⟨none, some (.jstr "garbage"), none⟩ =
      .error ⟨"views", "Número de vistas del video"⟩ ∧
    Video.patch 2 ⟨none, some (.jstr "garbage"), none⟩ [⟨1, "a", 2, 3⟩]
      zeroMetrics =
      (.err 404 "No se encontró un video con el ID 2", [⟨1, "a", 2, 3⟩],
        observeHistogram "PATCH" videoEndpointHist
          (incCounter "PATCH" videoEndpoint zeroMetrics)) :=
  ⟨rfl,
   existence_check_precedes_parse 2 ⟨none, some (.jstr "garbage"), none⟩
     [⟨1, "a", 2, 3⟩] zeroMetrics rfl⟩

theorem get_metrics (vid : Int) (s : Storage) (μ : Metrics) :
    (Video.get vid s μ).2.2 = μ := by
  cases hf : s.find? (fun r => r.id == vid) with
  | none => simp [Video.get, abort_if_video_doesnt_exist, hf]
  | some r => simp [Video.get, abort_if_video_doesnt_exist, hf]

theorem instrumented_counts (m e1 e2 : String) (μ : Metrics) (hne : e1 ≠ e2) :
    (observeHistogram m e2 (incCounter m e1 μ)).requestCount m e1 =
      μ.requestCount m e1 + 1 ∧
    (observeHistogram m e2 (incCounter m e1 μ)).histogramObs m e2 =
      μ.histogramObs m e2 + 1 ∧
    (observeHistogram m e2 (incCounter m e1 μ)).histogramObs m e1 =
      μ.histogramObs m e1 := by
  refine ⟨?_, ?_, ?_⟩
  · rw [observeHistogram_count, incCounter_self]
  · rw [observeHistogram_self, incCounter_hist]
  · rw [observeHistogram_other _ _ _ _ _ (fun hc => hne hc.2), incCounter_hist]

/-- Claim C7 fails on the code: handling a fetch updates no metric at all —
the registry is returned untouched, so no counter is incremented under any
key — and for create the counter is incremented under the endpoint label
ending in an angle bracket while the histogram observation lands under the
label ending in a brace: the histogram entry at the counter's own key stays
empty. -/
theorem metrics_claim_counterexample :
    (Video.get 1 [] zeroMetrics).2.2 = zeroMetrics ∧
    (Video.put 1 (mkPutBody "a" 0 0) [] zeroMetrics).2.2.requestCount
      "PUT" "/video/<int:video_id>" = 1 ∧
    (Video.put 1 (mkPutBody "a" 0 0) [] zeroMetrics).2.2.histogramObs
      "PUT" "/video/<int:video_id>" = 0 ∧
    (Video.put 1 (mkPutBody "a" 0 0) [] zeroMetrics).2.2.histogramObs
      "PUT" "/video/<int:video_id\x7d" = 1 := by
  refine ⟨rfl, ?_, ?_, ?_⟩ <;> decide

/-- Claim C7 amended: create, partial-update and delete each increment the
request counter keyed by (method, the literal template ending in an angle
bracket) and record exactly one histogram duration observation — but keyed
by (method, the template ending in a brace), a different key from the
counter's, whose own histogram entry is untouched; fetch updates neither a
counter nor a histogram. -/
theorem metrics_keys_and_gaps (vid : Int) (b : ReqBody) (s : Storage)
    (μ : Metrics) :
    (Video.get vid s μ).2.2 = μ ∧
    ((Video.put vid b s μ).2.2.requestCount "PUT" videoEndpoint =
        μ.requestCount "PUT" videoEndpoint + 1 ∧
      (Video.put vid b s μ).2.2.histogramObs "PUT" videoEndpointHist =
        μ.histogramObs "PUT" videoEndpointHist + 1 ∧
      (Video.put vid b s μ).2.2.histogramObs "PUT" videoEndpoint =
        μ.histogramObs "PUT" videoEndpoint) ∧
    ((Video.patch vid b s μ).2.2.requestCount "PATCH" videoEndpoint =
        μ.requestCount "PATCH" videoEndpoint + 1 ∧
      (Video.patch vid b s μ).2.2.histogramObs "PATCH" videoEndpointHist =
        μ.histogramObs "PATCH" videoEndpointHist + 1 ∧
      (Video.patch vid b s μ).2.2.histogramObs "PATCH" videoEndpoint =
        μ.histogramObs "PATCH" videoEndpoint) ∧
    ((Video.delete vid s μ).2.2.requestCount "DELETE" videoEndpoint =
        μ.requestCount "DELETE" videoEndpoint + 1 ∧
      (Video.delete vid s μ).2.2.histogramObs "DELETE" videoEndpointHist =
        μ.histogramObs "DELETE" videoEndpointHist + 1 ∧
      (Video.delete vid s μ).2.2.histogramObs "DELETE" videoEndpoint =
        μ.histogramObs "DELETE" videoEndpoint) ∧
    videoEndpoint ≠ videoEndpointHist := by
  refine ⟨get_metrics vid s μ, ?_, ?_, ?_, endpoint_labels_differ⟩
  · rw [put_metrics]
    exact instrumented_counts "PUT" videoEndpoint videoEndpointHist μ
      endpoint_labels_differ
  · rw [patch_metrics]
    exact instrumented_counts "PATCH" videoEndpoint videoEndpointHist μ
      endpoint_labels_differ
  · rw [delete_metrics]
    exact instrumented_counts "DELETE" videoEndpoint videoEndpointHist μ
      endpoint_labels_differ

theorem get_storage (vid : Int) (s : Storage) (μ : Metrics) :
    (Video.get vid s μ).2.1 = s := by
  cases hf : s.find? (fun r => r.id == vid) with
  | none => simp [Video.get, abort_if_video_doesnt_exist, hf]
  | some r => simp [Video.get, abort_if_video_doesnt_exist, hf]

theorem applyOp_mem {op : Op} {s : Storage} {r : VideoModel}
    (h : r ∈ applyOp op s) :
    (∃ r₀ ∈ s, r₀.id = r.id) ∨ ∃ b, op = Op.put r.id b := by
  cases op with
  | get vid =>
    rw [applyOp, get_storage] at h
    exact .inl ⟨r, h, rfl⟩
  | put vid b =>
    rw [applyOp] at h
    cases hp : parse_put_args b with
    | error e =>
      rw [show (Video.put vid b s zeroMetrics).2.1 = s by
        simp [Video.put, hp]] at h
      exact .inl ⟨r, h, rfl⟩
    | ok args =>
      cases hf : s.find? (fun x => x.id == vid) with
      | some r0 =>
        rw [show (Video.put vid b s zeroMetrics).2.1 = s by
          simp [Video.put, hp, hf]] at h
        exact .inl ⟨r, h, rfl⟩
      | none =>
        rw [show (Video.put vid b s zeroMetrics).2.1 =
            s ++ [⟨vid, args.name, args.views, args.likes⟩] by
          simp [Video.put, hp, hf]] at h
        rcases List.mem_append.mp h with h1 | h1
        · exact .inl ⟨r, h1, rfl⟩
        · have hr : r = ⟨vid, args.name, args.views, args.likes⟩ := by
            simpa using h1
          subst hr
          exact .inr ⟨b, rfl⟩
  | patch vid b =>
    rw [applyOp] at h
    cases hf : s.find? (fun x => x.id == vid) with
    | none =>
      rw [show (Video.patch vid b s zeroMetrics).2.1 = s by
        simp [Video.patch, abort_if_video_doesnt_exist, hf]] at h
      exact .inl ⟨r, h, rfl⟩
    | some r0 =>
      cases hp : parse_update_args b with
      | error e =>
        rw [show (Video.patch vid b s zeroMetrics).2.1 = s by
          simp [Video.patch, abort_if_video_doesnt_exist, hf, hp]] at h
        exact .inl ⟨r, h, rfl⟩
      | ok args =>
        rw [show (Video.patch vid b s zeroMetrics).2.1 =
            updateFirst (fun x => x.id == vid) (applyUpdate args) s by
          simp [Video.patch, abort_if_video_doesnt_exist, hf, hp]] at h
        rcases mem_updateFirst h with h1 | ⟨y, hy, hxy⟩
        · exact .inl ⟨r, h1, rfl⟩
        · exact .inl ⟨y, hy, by rw [hxy, applyUpdate_id]⟩
  | delete vid =>
    rw [applyOp] at h
    cases hf : s.find? (fun x => x.id == vid) with
    | none =>
      rw [show (Video.delete vid s zeroMetrics).2.1 = s by
        simp [Video.delete, abort_if_video_doesnt_exist, hf]] at h
      exact .inl ⟨r, h, rfl⟩
    | some r0 =>
      rw [show (Video.delete vid s zeroMetrics).2.1 =
          removeFirst (fun x => x.id == vid) s by
        simp [Video.delete, abort_if_video_doesnt_exist, hf]] at h
      exact .inl ⟨r, mem_removeFirst h, rfl⟩

theorem run_mem_origin (ops : List Op) : ∀ (s : Storage) (r : VideoModel),
    r ∈ ops.foldl (fun t op => applyOp op t) s →
    (∃ r₀ ∈ s, r₀.id = r.id) ∨ ∃ b, Op.put r.id b ∈ ops := by
  induction ops with
  | nil =>
    intro s r h
    exact .inl ⟨r, by simpa using h, rfl⟩
  | cons op ops ih =>
    intro s r h
    rw [List.foldl_cons] at h
    rcases ih (applyOp op s) r h with ⟨r₀, hr₀, hid⟩ | ⟨b, hb⟩
    · rcases applyOp_mem hr₀ with ⟨r₁, hr₁, hid1⟩ | ⟨b, hb⟩
      · exact .inl ⟨r₁, hr₁, hid1.trans hid⟩
      · subst hb
        rw [← hid]
        exact .inr ⟨b, List.mem_cons_self _ _⟩
    · exact .inr ⟨b, List.mem_cons_of_mem op hb⟩

/-- Claim C8: record ids are immutable.  Partial update assigns only the
name, views and likes fields — the id field is preserved on every record;
one request step never gives a record a fresh id except create itself (after
any step, each record's id was either already present or is the id passed to
the create that ran); hence every record in a state reachable from the empty
table holds the id supplied to some create of the trace. -/
theorem id_immutable (args : UpdateArgs) (x : VideoModel) (op : Op)
    (t : Storage) (y : VideoModel) (ops : List Op) (r : VideoModel)
    (hy : y ∈ applyOp op t) (hr : r ∈ run ops) :
    (applyUpdate args x).id = x.id ∧
    ((∃ y₀ ∈ t, y₀.id = y.id) ∨ ∃ b, op = Op.put y.id b) ∧
    ∃ b, Op.put r.id b ∈ ops := by
  refine ⟨applyUpdate_id args x, applyOp_mem hy, ?_⟩
  have hr' : r ∈ ops.foldl (fun t op => applyOp op t) [] := hr
  rcases run_mem_origin ops [] r hr' with ⟨r₀, hr₀, _⟩ | h
  · simp at hr₀
  · exact h

/-- Witness for C8: a no-op update on one record, a create step into the
empty table, and the one-create trace producing that record. -/
theorem id_immutable_witness :
    (applyUpdate ⟨none, none, none⟩ ⟨2, "b", 0, 0⟩).id =
      (⟨2, "b", 0, 0⟩ : VideoModel).id ∧
    ((∃ y₀ ∈ ([] : Storage), y₀.id = (⟨1, "a", 0, 0⟩ : VideoModel).id) ∨
      ∃ b, Op.put 1 (mkPutBody "a" 0 0) =
        Op.put (⟨1, "a", 0, 0⟩ : VideoModel).id b) ∧
    ∃ b, Op.put (⟨1, "a", 0, 0⟩ : VideoModel).id b ∈
      [Op.put 1 (mkPutBody "a" 0 0)] :=
  id_immutable ⟨none, none, none⟩ ⟨2, "b", 0, 0⟩
    (Op.put 1 (mkPutBody "a" 0 0)) [] ⟨1, "a", 0, 0⟩
    [Op.put 1 (mkPutBody "a" 0 0)] ⟨1, "a", 0, 0⟩ (by decide) (by decide)
